import Mathlib

/-!
Verification development for the HairWorx.co backend (`main.py`,
`schemas.py`): a shallow embedding of the content resolver with
placeholder fallback, the slot calculator, the quiz recommendation
engine and the appointment-creation route, together with theorems
settling the specified behaviour of each.

The document store adapter (`database.py`, spec section 4.1) is external
to the embedded code: it is modelled as a function from collection names
to either a storage error or a list of documents, and the theorems
quantify over all its behaviours.
-/

namespace HairWorx

/-- A JSON-like value as stored in a document.  `vNone` is Python's
`None` (in particular the result of `d.get` on a missing key). -/
inductive Val where
  | vStr : String → Val
  | vNat : Nat → Val
  | vFloat : ℚ → Val
  | vStrList : List String → Val
  | vNone : Val
deriving DecidableEq, Repr

/-- Python's `str()` on the values of the model. -/
def pyStr : Val → String
  | .vStr s => s
  | .vNat n => toString n
  | .vFloat q => toString q
  | .vStrList l => toString l
  | .vNone => "None"

/-- A document: a Python dict as an insertion-ordered association list.
Real dicts never hold a key twice; `DocWF` states that invariant. -/
abbrev Doc : Type := List (String × Val)

/-- The Python-dict invariant: every key appears at most once. -/
def DocWF (d : Doc) : Prop := (d.map Prod.fst).Nodup

instance (d : Doc) : Decidable (DocWF d) :=
  inferInstanceAs (Decidable (List.Nodup _))

/-- `d[k]`-style lookup (`d.get(k)` returns the first/only binding). -/
def dictGet : Doc → String → Option Val
  | [], _ => none
  | (k', v) :: t, k => if k' = k then some v else dictGet t k

/-- `d[k] = v`: replace the existing binding in place, else append. -/
def dictSet : Doc → String → Val → Doc
  | [], k, v => [(k, v)]
  | (k', v') :: t, k, v =>
      if k' = k then (k, v) :: t else (k', v') :: dictSet t k v

/-- `d.pop(k, None)`: drop the binding of `k` (the first, which for a
well-formed dict is the only one). -/
def dictPop : Doc → String → Doc
  | [], _ => []
  | (k', v) :: t, k => if k' = k then t else (k', v) :: dictPop t k

/-- The per-record normalisation of `collection_list` (main.py 63-65):
`d["id"] = str(d.get("_id")); d.pop("_id", None)`. -/
def normalize (d : Doc) : Doc :=
  dictPop (dictSet d "id" (.vStr (pyStr ((dictGet d "_id").getD .vNone)))) "_id"

/-- The document store adapter: per collection name, either a storage
error or the stored documents. -/
abbrev Store : Type := String → Except String (List Doc)

/-- `collection_list` (main.py 59-69): list the collection; on any
storage error, or on an empty result, return the placeholder list;
otherwise normalise each record. -/
def collection_list (name : String) (store : Store) (placeholder : List Doc) : List Doc :=
  match store name with
  | .error _ => placeholder
  | .ok docs => if docs.isEmpty then placeholder else docs.map normalize

/-- `PLACEHOLDER_SERVICES` (main.py 74-78). -/
def PLACEHOLDER_SERVICES : List Doc :=
  [ [("name", .vStr "Signature Cut & Finish"),
     ("description", .vStr "Precision cut, luxury cleanse, high-gloss finish."),
     ("duration_minutes", .vNat 60), ("price_from", .vFloat 95.0),
     ("category", .vStr "Cut & Style")],
    [("name", .vStr "Balayage Luminé"),
     ("description", .vStr "Hand-painted highlights for sunlit dimension."),
     ("duration_minutes", .vNat 180), ("price_from", .vFloat 240.0),
     ("category", .vStr "Color")],
    [("name", .vStr "Keratin Silk Infusion"),
     ("description", .vStr "Smoothing treatment for mirror-shine and control."),
     ("duration_minutes", .vNat 150), ("price_from", .vFloat 280.0),
     ("category", .vStr "Treatment")] ]

/-- `PLACEHOLDER_STYLISTS` (main.py 80-84). -/
def PLACEHOLDER_STYLISTS : List Doc :=
  [ [("name", .vStr "Aria Bennett"),
     ("bio", .vStr "Creative Director. Editorial finishes and precision bobs."),
     ("specialty", .vStrList ["Cutting", "Editorial"]),
     ("photo_url", .vStr "https://images.unsplash.com/photo-1522335789203-aabd1fc54bc9?q=80&w=1200&auto=format&fit=crop")],
    [("name", .vStr "Luca Romano"),
     ("bio", .vStr "Senior Colourist. Lived-in blondes and Italian brunettes."),
     ("specialty", .vStrList ["Balayage", "Color"]),
     ("photo_url", .vStr "https://images.unsplash.com/photo-1520975922203-b8807aabde6c?q=80&w=1200&auto=format&fit=crop")],
    [("name", .vStr "Maya Chen"),
     ("bio", .vStr "Treatment Specialist. Keratin and scalp wellness."),
     ("specialty", .vStrList ["Treatment", "Scalp"]),
     ("photo_url", .vStr "https://images.unsplash.com/photo-1607247130973-1eaba0e1ff55?q=80&w=1200&auto=format&fit=crop")] ]

/-- `PLACEHOLDER_REVIEWS` (main.py 86-90). -/
def PLACEHOLDER_REVIEWS : List Doc :=
  [ [("name", .vStr "Sofia"), ("rating", .vNat 5),
     ("comment", .vStr "Flawless service – my hair has never looked better."),
     ("source", .vStr "Google")],
    [("name", .vStr "James"), ("rating", .vNat 5),
     ("comment", .vStr "Luxury from start to finish. Highly recommend."),
     ("source", .vStr "Google")],
    [("name", .vStr "Layla"), ("rating", .vNat 5),
     ("comment", .vStr "Beautiful space, expert team, immaculate results."),
     ("source", .vStr "Google")] ]

/-- `PLACEHOLDER_PROMOS` (main.py 92-94). -/
def PLACEHOLDER_PROMOS : List Doc :=
  [ [("title", .vStr "New Guest Welcome"),
     ("description", .vStr "Enjoy 15% off your first colour service."),
     ("code", .vStr "WELCOME15")] ]

/-- `PLACEHOLDER_FAQS` (main.py 96-99). -/
def PLACEHOLDER_FAQS : List Doc :=
  [ [("question", .vStr "Do you offer consultations?"),
     ("answer", .vStr "Yes, complimentary consultations are available for all services.")],
    [("question", .vStr "What is your cancellation policy?"),
     ("answer", .vStr "We kindly ask for 24 hours' notice to reschedule or cancel.")] ]

/-- `PLACEHOLDER_GALLERY` (main.py 101-105). -/
def PLACEHOLDER_GALLERY : List Doc :=
  [ [("image_url", .vStr "https://images.unsplash.com/photo-1514575114800-4eec5aadae06?q=80&w=1600&auto=format&fit=crop"),
     ("caption", .vStr "Balayage Luminé"), ("category", .vStr "Color")],
    [("image_url", .vStr "https://images.unsplash.com/photo-1503951458645-643d53bfd90f?q=80&w=1600&auto=format&fit=crop"),
     ("caption", .vStr "Classic Bob"), ("category", .vStr "Cut")],
    [("image_url", .vStr "https://images.unsplash.com/photo-1522335789203-aabd1fc54bc9?q=80&w=1600&auto=format&fit=crop"),
     ("caption", .vStr "Runway Finish"), ("category", .vStr "Style")] ]

/-- `GET /api/services` (main.py 110-112). -/
def get_services (store : Store) : List Doc :=
  collection_list "service" store PLACEHOLDER_SERVICES

/-- `GET /api/stylists` (main.py 115-117). -/
def get_stylists (store : Store) : List Doc :=
  collection_list "stylist" store PLACEHOLDER_STYLISTS

/-- `GET /api/reviews` (main.py 120-122). -/
def get_reviews (store : Store) : List Doc :=
  collection_list "review" store PLACEHOLDER_REVIEWS

/-- `GET /api/promotions` (main.py 125-127). -/
def get_promotions (store : Store) : List Doc :=
  collection_list "promotion" store PLACEHOLDER_PROMOS

/-- `GET /api/faqs` (main.py 130-132). -/
def get_faqs (store : Store) : List Doc :=
  collection_list "faq" store PLACEHOLDER_FAQS

/-- `GET /api/gallery` (main.py 135-137). -/
def get_gallery (store : Store) : List Doc :=
  collection_list "galleryitem" store PLACEHOLDER_GALLERY

/-! ## Slot calculator (main.py 142-160) -/

/-- An HTTP error response (`HTTPException(status_code, detail)`). -/
structure HTTPError where
  status : Nat
  detail : String
deriving DecidableEq, Repr

/-- Numeric value of a list of decimal digit characters. -/
def digitsVal (l : List Char) : Nat :=
  l.foldl (fun a c => a * 10 + (c.toNat - 48)) 0

/-- The Gregorian leap-year rule (as in Python's `calendar`/`datetime`). -/
def isLeap (y : Nat) : Bool :=
  y % 4 == 0 && (y % 100 != 0 || y % 400 == 0)

/-- Length of month `m` of year `y` (as in Python's `datetime`). -/
def daysInMonth (y m : Nat) : Nat :=
  if m = 2 then (if isLeap y then 29 else 28)
  else if m = 4 ∨ m = 6 ∨ m = 9 ∨ m = 11 then 30
  else 31

/-- Split a character list at every `-`, like `str.split("-")`. -/
def splitDash : List Char → List (List Char)
  | [] => [[]]
  | c :: t =>
      match splitDash t with
      | [] => []
      | h :: r => if c = '-' then [] :: h :: r else (c :: h) :: r

/-- Model of `datetime.strptime(date, "%Y-%m-%d")` (main.py 151),
returning the parsed (year, month, day) or `none` on `ValueError`.
CPython's `_strptime` matches `%Y` as exactly four digits and `%m`/`%d`
as one or two digits (zero-padding optional, month `1..12`, day `1..31`
at the pattern level), requires the whole string to be consumed, and the
`datetime` constructor then rejects out-of-range calendar days and year
`0`.  Since the three tokens are digit runs separated by literal `-`,
the match is equivalent to splitting on `-`. -/
def parseDate (s : String) : Option (Nat × Nat × Nat) :=
  match splitDash s.data with
  | [ys, ms, ds] =>
      if ys.all Char.isDigit ∧ ms.all Char.isDigit ∧ ds.all Char.isDigit
          ∧ ys.length = 4
          ∧ (ms.length = 1 ∨ ms.length = 2)
          ∧ (ds.length = 1 ∨ ds.length = 2) then
        let y := digitsVal ys
        let m := digitsVal ms
        let d := digitsVal ds
        if 1 ≤ y ∧ 1 ≤ m ∧ m ≤ 12 ∧ 1 ≤ d ∧ d ≤ daysInMonth y m then
          some (y, m, d)
        else none
      else none
  | _ => none

/-- `date.toordinal()`: day number in the proleptic Gregorian calendar,
day 1 being 0001-01-01. -/
def toordinal (y m d : Nat) : Nat :=
  (y - 1) * 365 + (y - 1) / 4 - (y - 1) / 100 + (y - 1) / 400
    + (List.range (m - 1)).foldl (fun a i => a + daysInMonth y (i + 1)) 0
    + d

/-- `datetime.weekday()`: Monday is 0, Sunday is 6. -/
def pyWeekday (y m d : Nat) : Nat := (toordinal y m d + 6) % 7

/-- The fixed candidate hours (main.py 155). -/
def base_times : List Nat := [10, 11, 12, 14, 15, 16, 17]

/-- `f"{h:02d}:00"` (main.py 156). -/
def fmtTime (h : Nat) : String :=
  (if h < 10 then "0" ++ toString h else toString h) ++ ":00"

/-- `GET /api/slots` (main.py 148-160): 400 on an unparseable date,
otherwise the candidate times, with 12:00 and 16:00 dropped on
weekends; `service_id` and `stylist_id` are accepted but unused. -/
def get_slots (date : String) (service_id stylist_id : Option String) :
    Except HTTPError (String × List String) :=
  match parseDate date with
  | none => .error ⟨400, "Invalid date format. Use YYYY-MM-DD"⟩
  | some (y, m, d) =>
      let slots := base_times.map fmtTime
      let slots :=
        if pyWeekday y m d = 5 ∨ pyWeekday y m d = 6 then
          slots.filter (fun t => !(t == "12:00" || t == "16:00"))
        else slots
      .ok (date, slots)

/-! ## AI hair diagnosis quiz (main.py 185-226) -/

/-- `QuizInput` (main.py 185-190). -/
structure QuizInput where
  hair_type : String
  condition : String
  scalp : Option String
  goals : List String
  past_treatments : Option (List String)

/-- One quiz recommendation entry. -/
structure Rec where
  service : String
  price_from : ℚ
  why : String
deriving DecidableEq, Repr

/-- Whether `needle in haystack` holds on character lists (Python's
substring containment). -/
def listStarts : List Char → List Char → Bool
  | _, [] => true
  | [], _ :: _ => false
  | a :: as, b :: bs => a == b && listStarts as bs

/-- Occurrence of `n` as a contiguous run inside `h`. -/
def listOccurs (n : List Char) : List Char → Bool
  | [] => n.isEmpty
  | c :: t => listStarts (c :: t) n || listOccurs n t

/-- Python's `needle in haystack` on strings. -/
def pyIn (needle haystack : String) : Bool :=
  listOccurs needle.data haystack.data

/-- Python's `s.lower()` (ASCII inputs). -/
def pyLower (s : String) : String := ⟨s.data.map Char.toLower⟩

/-- Python's `" ".join(goals)`. -/
def joinGoals (goals : List String) : String := String.intercalate " " goals

/-- Rule 1 condition (main.py 197):
`"frizz" in data.condition.lower() or "smooth" in " ".join(data.goals).lower()`. -/
def rule1 (data : QuizInput) : Bool :=
  pyIn "frizz" (pyLower data.condition) || pyIn "smooth" (pyLower (joinGoals data.goals))

/-- Rule 2 condition (main.py 203):
`"volume" in " ".join(data.goals).lower()`. -/
def rule2 (data : QuizInput) : Bool :=
  pyIn "volume" (pyLower (joinGoals data.goals))

/-- Rule 3 condition (main.py 209):
`"colour" in data.goals or "color" in " ".join(data.goals).lower()` —
an exact, case-sensitive list membership test or a case-insensitive
substring test. -/
def rule3 (data : QuizInput) : Bool :=
  data.goals.contains "colour" || pyIn "color" (pyLower (joinGoals data.goals))

/-- Recommendation appended by rule 1 (main.py 198-202). -/
def keratinRec : Rec :=
  ⟨"Keratin Silk Infusion", 280.0,
   "Intensive smoothing to reduce frizz and add mirror-shine."⟩

/-- Recommendation appended by rule 2 (main.py 204-208). -/
def cutRec : Rec :=
  ⟨"Signature Cut & Finish", 95.0,
   "Precision shape tailored to enhance natural volume."⟩

/-- Recommendation appended by rule 3 (main.py 210-214). -/
def balayageRec : Rec :=
  ⟨"Balayage Luminé", 240.0,
   "Lived-in dimension with soft, seamless tones."⟩

/-- The default recommendation (main.py 217-221). -/
def consultRec : Rec :=
  ⟨"Personalised Consultation", 0.0,
   "Meet your stylist to design a bespoke plan."⟩

/-- `POST /api/quiz` (main.py 193-226): evaluate the three keyword
rules in order, appending one recommendation each; if none fired,
append the single default. -/
def ai_quiz (data : QuizInput) : String × List Rec :=
  let recommendations : List Rec := []
  let recommendations :=
    if rule1 data then recommendations ++ [keratinRec] else recommendations
  let recommendations :=
    if rule2 data then recommendations ++ [cutRec] else recommendations
  let recommendations :=
    if rule3 data then recommendations ++ [balayageRec] else recommendations
  let recommendations :=
    if recommendations.isEmpty then recommendations ++ [consultRec] else recommendations
  ("Curated for your hair profile.", recommendations)

/-! ## Appointment creation (schemas.py 12-26, main.py 163-169) -/

/-- The validated `Appointment` body (schemas.py 12-26). -/
structure Appointment where
  customer_name : String
  customer_email : Option String
  customer_phone : Option String
  service_id : String
  service_name : String
  stylist_id : Option String
  stylist_name : Option String
  date : String
  time : String
  notes : Option String
  price : Option ℚ
  source : String
  calendar_synced : Bool
  reminder_method : Option String
deriving DecidableEq, Repr

/-- A raw `POST /api/appointments` JSON body: every schema field
possibly absent. -/
structure RawAppointment where
  customer_name : Option String
  customer_email : Option String
  customer_phone : Option String
  service_id : Option String
  service_name : Option String
  stylist_id : Option String
  stylist_name : Option String
  date : Option String
  time : Option String
  notes : Option String
  price : Option ℚ
  source : Option String
  calendar_synced : Option Bool
  reminder_method : Option String

/-- Model of the FastAPI/pydantic body validation against the
`Appointment` schema (schemas.py 12-26): the fields declared with
`Field(...)` — `customer_name`, `service_id`, `service_name`, `date`,
`time` — are required and their absence is a validation error;
`source` defaults to `"web"`, `calendar_synced` to `False`, the other
fields to `None`; `price`, when given, must satisfy `ge=0`.  (Email
format validation is not modelled.) -/
def validateAppointment (r : RawAppointment) : Except String Appointment :=
  match r.customer_name with
  | none => .error "customer_name: field required"
  | some cn =>
  match r.service_id with
  | none => .error "service_id: field required"
  | some sid =>
  match r.service_name with
  | none => .error "service_name: field required"
  | some sn =>
  match r.date with
  | none => .error "date: field required"
  | some dt =>
  match r.time with
  | none => .error "time: field required"
  | some tm =>
  if r.price.getD 0 < 0 then
    .error "price: ensure this value is greater than or equal to 0"
  else
    .ok ⟨cn, r.customer_email, r.customer_phone, sid, sn, r.stylist_id,
         r.stylist_name, dt, tm, r.notes, r.price, r.source.getD "web",
         r.calendar_synced.getD false, r.reminder_method⟩

/-- The `POST /api/appointments` success body. -/
structure AppointmentResponse where
  status : String
  id : String
  calendar_synced : Bool
deriving DecidableEq, Repr

/-- Handler body of `POST /api/appointments` (main.py 163-169), with
`create_document("appointment", appt)` abstracted as `store`: success
returns `{status:"ok", id, calendar_synced: False}`; a raised store
error becomes `HTTPException(500, str(e))`. -/
def create_appointment (store : Appointment → Except String String)
    (appt : Appointment) : Except HTTPError AppointmentResponse :=
  match store appt with
  | .ok i => .ok ⟨"ok", i, false⟩
  | .error e => .error ⟨500, e⟩

/-- The full route: FastAPI validates the body against the schema
before the handler runs; validation failure is a 422 client error and
the handler (hence the store) is never invoked. -/
def appointment_route (store : Appointment → Except String String)
    (raw : RawAppointment) : Except HTTPError AppointmentResponse :=
  match validateAppointment raw with
  | .error e => .error ⟨422, e⟩
  | .ok appt => create_appointment store appt

/-! ## Dictionary lemmas -/

theorem dictGet_set_self (d : Doc) (k : String) (v : Val) :
    dictGet (dictSet d k v) k = some v := by
  induction d with
  | nil => simp [dictSet, dictGet]
  | cons hd t ih =>
      obtain ⟨k0, v0⟩ := hd
      by_cases h0 : k0 = k <;> simp [dictSet, dictGet, h0, ih]

theorem dictGet_pop_ne (d : Doc) (k k' : String) (h : k ≠ k') :
    dictGet (dictPop d k') k = dictGet d k := by
  induction d with
  | nil => rfl
  | cons hd t ih =>
      obtain ⟨k0, v0⟩ := hd
      by_cases h0 : k0 = k'
      · subst h0
        have : k0 ≠ k := fun e => h (e.symm.trans rfl)
        simp [dictPop, dictGet, this]
      · by_cases h1 : k0 = k <;> simp [dictPop, dictGet, h0, h1, h, ih]

theorem dictGet_eq_none_of_not_mem (d : Doc) (k : String)
    (h : k ∉ d.map Prod.fst) : dictGet d k = none := by
  induction d with
  | nil => rfl
  | cons hd t ih =>
      obtain ⟨k0, v0⟩ := hd
      simp only [List.map_cons, List.mem_cons, not_or] at h
      have : k0 ≠ k := fun e => h.1 e.symm
      simp [dictGet, this, ih h.2]

theorem keys_dictSet (d : Doc) (k : String) (v : Val) :
    (dictSet d k v).map Prod.fst =
      if k ∈ d.map Prod.fst then d.map Prod.fst else d.map Prod.fst ++ [k] := by
  induction d with
  | nil => simp [dictSet]
  | cons hd t ih =>
      obtain ⟨k0, v0⟩ := hd
      by_cases h0 : k0 = k
      · subst h0; simp [dictSet]
      · have : ¬ k = k0 := fun e => h0 e.symm
        by_cases hk : k ∈ t.map Prod.fst <;>
          simp [dictSet, h0, this, hk, ih]

theorem DocWF_dictSet (d : Doc) (k : String) (v : Val) (h : DocWF d) :
    DocWF (dictSet d k v) := by
  unfold DocWF at h ⊢
  rw [keys_dictSet]
  split
  · exact h
  · next hk =>
      simp [List.nodup_append, h, hk]

theorem dictGet_pop_self (d : Doc) (k : String) (h : DocWF d) :
    dictGet (dictPop d k) k = none := by
  induction d with
  | nil => rfl
  | cons hd t ih =>
      obtain ⟨k0, v0⟩ := hd
      unfold DocWF at h
      simp only [List.map_cons, List.nodup_cons] at h
      by_cases h0 : k0 = k
      · subst h0
        simpa [dictPop] using dictGet_eq_none_of_not_mem t k0 h.1
      · simp only [dictPop, h0, if_false, dictGet]
        simpa [h0] using ih h.2

theorem dictGet_normalize_id (d : Doc) :
    dictGet (normalize d) "id" =
      some (.vStr (pyStr ((dictGet d "_id").getD .vNone))) := by
  unfold normalize
  rw [dictGet_pop_ne _ _ _ (by decide)]
  exact dictGet_set_self ..

theorem dictGet_normalize_oldid (d : Doc) (h : DocWF d) :
    dictGet (normalize d) "_id" = none :=
  dictGet_pop_self _ _ (DocWF_dictSet _ _ _ h)

/-! ## Content resolver lemmas -/

theorem collection_list_fallback (name : String) (store : Store) (p : List Doc)
    (h : (∃ e, store name = .error e) ∨ store name = .ok []) :
    collection_list name store p = p := by
  rcases h with ⟨e, he⟩ | he <;> simp [collection_list, he]

theorem collection_list_ok (name : String) (store : Store) (p docs : List Doc)
    (h : store name = .ok docs) (hne : docs ≠ []) :
    collection_list name store p = docs.map normalize := by
  simp [collection_list, h, hne]

theorem content_ok_shape (name : String) (store : Store) (p docs : List Doc)
    (h : store name = .ok docs) (hne : docs ≠ []) (hwf : ∀ d ∈ docs, DocWF d) :
    collection_list name store p = docs.map normalize
  ∧ (collection_list name store p).length = docs.length
  ∧ ∀ e ∈ collection_list name store p,
      (∃ s, dictGet e "id" = some (.vStr s)) ∧ dictGet e "_id" = none := by
  have hlist := collection_list_ok name store p docs h hne
  refine ⟨hlist, by rw [hlist]; simp, ?_⟩
  rw [hlist]
  intro e he
  rcases List.mem_map.mp he with ⟨d, hd, rfl⟩
  exact ⟨⟨_, dictGet_normalize_id d⟩, dictGet_normalize_oldid d (hwf d hd)⟩

/-! ## Claim C1 -/

/-- C1: for every one of the six content endpoints, if the store
listing call raises any storage error, or succeeds but returns zero
records, the endpoint returns the fixed placeholder list for that
content type exactly, in its defined order, and no error is surfaced
to the caller. -/
theorem content_endpoints_fallback (store : Store) :
    (((∃ e, store "service" = .error e) ∨ store "service" = .ok []) →
        get_services store = PLACEHOLDER_SERVICES)
  ∧ (((∃ e, store "stylist" = .error e) ∨ store "stylist" = .ok []) →
        get_stylists store = PLACEHOLDER_STYLISTS)
  ∧ (((∃ e, store "review" = .error e) ∨ store "review" = .ok []) →
        get_reviews store = PLACEHOLDER_REVIEWS)
  ∧ (((∃ e, store "promotion" = .error e) ∨ store "promotion" = .ok []) →
        get_promotions store = PLACEHOLDER_PROMOS)
  ∧ (((∃ e, store "faq" = .error e) ∨ store "faq" = .ok []) →
        get_faqs store = PLACEHOLDER_FAQS)
  ∧ (((∃ e, store "galleryitem" = .error e) ∨ store "galleryitem" = .ok []) →
        get_gallery store = PLACEHOLDER_GALLERY) :=
  ⟨fun h => collection_list_fallback _ store _ h,
   fun h => collection_list_fallback _ store _ h,
   fun h => collection_list_fallback _ store _ h,
   fun h => collection_list_fallback _ store _ h,
   fun h => collection_list_fallback _ store _ h,
   fun h => collection_list_fallback _ store _ h⟩

/-- Witness for C1: a raising store and an empty store both yield the
placeholder lists. -/
theorem content_endpoints_fallback_witness :
    get_services (fun _ => .error "store down") = PLACEHOLDER_SERVICES
  ∧ get_stylists (fun _ => .ok []) = PLACEHOLDER_STYLISTS
  ∧ get_reviews (fun _ => .ok []) = PLACEHOLDER_REVIEWS
  ∧ get_promotions (fun _ => .ok []) = PLACEHOLDER_PROMOS
  ∧ get_faqs (fun _ => .ok []) = PLACEHOLDER_FAQS
  ∧ get_gallery (fun _ => .ok []) = PLACEHOLDER_GALLERY :=
  ⟨(content_endpoints_fallback _).1 (Or.inl ⟨"store down", rfl⟩),
   (content_endpoints_fallback _).2.1 (Or.inr rfl),
   (content_endpoints_fallback _).2.2.1 (Or.inr rfl),
   (content_endpoints_fallback _).2.2.2.1 (Or.inr rfl),
   (content_endpoints_fallback _).2.2.2.2.1 (Or.inr rfl),
   (content_endpoints_fallback _).2.2.2.2.2 (Or.inr rfl)⟩

/-! ## Claim C2 -/

/-- C2: for every one of the six content endpoints, if the store
listing call succeeds with N ≥ 1 records, the response is exactly the
normalised records: it has exactly N entries, each entry carries a
string `id` field derived from the store's internal `_id`, no entry
retains `_id`, and no placeholder entry is mixed in. -/
theorem content_endpoints_normalize (store : Store) :
    (∀ docs, store "service" = .ok docs → docs ≠ [] → (∀ d ∈ docs, DocWF d) →
        get_services store = docs.map normalize
      ∧ (get_services store).length = docs.length
      ∧ ∀ e ∈ get_services store,
          (∃ s, dictGet e "id" = some (.vStr s)) ∧ dictGet e "_id" = none)
  ∧ (∀ docs, store "stylist" = .ok docs → docs ≠ [] → (∀ d ∈ docs, DocWF d) →
        get_stylists store = docs.map normalize
      ∧ (get_stylists store).length = docs.length
      ∧ ∀ e ∈ get_stylists store,
          (∃ s, dictGet e "id" = some (.vStr s)) ∧ dictGet e "_id" = none)
  ∧ (∀ docs, store "review" = .ok docs → docs ≠ [] → (∀ d ∈ docs, DocWF d) →
        get_reviews store = docs.map normalize
      ∧ (get_reviews store).length = docs.length
      ∧ ∀ e ∈ get_reviews store,
          (∃ s, dictGet e "id" = some (.vStr s)) ∧ dictGet e "_id" = none)
  ∧ (∀ docs, store "promotion" = .ok docs → docs ≠ [] → (∀ d ∈ docs, DocWF d) →
        get_promotions store = docs.map normalize
      ∧ (get_promotions store).length = docs.length
      ∧ ∀ e ∈ get_promotions store,
          (∃ s, dictGet e "id" = some (.vStr s)) ∧ dictGet e "_id" = none)
  ∧ (∀ docs, store "faq" = .ok docs → docs ≠ [] → (∀ d ∈ docs, DocWF d) →
        get_faqs store = docs.map normalize
      ∧ (get_faqs store).length = docs.length
      ∧ ∀ e ∈ get_faqs store,
          (∃ s, dictGet e "id" = some (.vStr s)) ∧ dictGet e "_id" = none)
  ∧ (∀ docs, store "galleryitem" = .ok docs → docs ≠ [] → (∀ d ∈ docs, DocWF d) →
        get_gallery store = docs.map normalize
      ∧ (get_gallery store).length = docs.length
      ∧ ∀ e ∈ get_gallery store,
          (∃ s, dictGet e "id" = some (.vStr s)) ∧ dictGet e "_id" = none) :=
  ⟨fun docs h hne hwf => content_ok_shape _ store _ docs h hne hwf,
   fun docs h hne hwf => content_ok_shape _ store _ docs h hne hwf,
   fun docs h hne hwf => content_ok_shape _ store _ docs h hne hwf,
   fun docs h hne hwf => content_ok_shape _ store _ docs h hne hwf,
   fun docs h hne hwf => content_ok_shape _ store _ docs h hne hwf,
   fun docs h hne hwf => content_ok_shape _ store _ docs h hne hwf⟩

/-- Witness for C2: one concrete stored record is returned normalised
(`_id` renamed to the string field `id`), with no placeholder mixed in. -/
theorem content_endpoints_normalize_witness :
    get_services (fun _ => .ok [[("_id", .vStr "a1"), ("name", .vStr "X")]])
      = [[("name", Val.vStr "X"), ("id", Val.vStr "a1")]] := by
  have h := ((content_endpoints_normalize
      (fun _ => .ok [[("_id", .vStr "a1"), ("name", .vStr "X")]])).1
      [[("_id", .vStr "a1"), ("name", .vStr "X")]] rfl (by decide) (by decide)).1
  rw [h]
  rfl

/-! ## Claim C10 -/

/-- C10: if the store listing succeeds with at least one record and a
returned record lacks the internal `_id` field, the content endpoint
still returns it (the record count is preserved), with its public `id`
field set to the literal string "None". -/
theorem content_missing_id_stringified (name : String) (store : Store)
    (p docs : List Doc) (d : Doc) (h : store name = .ok docs) (hne : docs ≠ [])
    (hd : d ∈ docs) (hid : dictGet d "_id" = none) :
    normalize d ∈ collection_list name store p
  ∧ dictGet (normalize d) "id" = some (.vStr "None")
  ∧ (collection_list name store p).length = docs.length := by
  have hlist := collection_list_ok name store p docs h hne
  refine ⟨by rw [hlist]; exact List.mem_map_of_mem _ hd, ?_, by rw [hlist]; simp⟩
  rw [dictGet_normalize_id, hid]
  rfl

/-- Witness for C10: a record without `_id` comes back with
`id = "None"`. -/
theorem content_missing_id_stringified_witness :
    normalize [("name", Val.vStr "X")] ∈
      collection_list "service" (fun _ => .ok [[("name", Val.vStr "X")]])
        PLACEHOLDER_SERVICES
  ∧ dictGet (normalize [("name", Val.vStr "X")]) "id" = some (.vStr "None") :=
  ⟨(content_missing_id_stringified "service" (fun _ => .ok [[("name", Val.vStr "X")]])
      PLACEHOLDER_SERVICES [[("name", Val.vStr "X")]] [("name", Val.vStr "X")]
      rfl (by decide) (by decide) (by decide)).1,
   (content_missing_id_stringified "service" (fun _ => .ok [[("name", Val.vStr "X")]])
      PLACEHOLDER_SERVICES [[("name", Val.vStr "X")]] [("name", Val.vStr "X")]
      rfl (by decide) (by decide) (by decide)).2.1⟩

/-! ## Claim C3 -/

/-- C3: for every date string that parses as a calendar day, a Saturday
or Sunday yields the seven candidate times with exactly 12:00 and 16:00
removed, any other weekday yields all seven; the result depends only on
the date (`service_id` and `stylist_id` are ignored), so the same date
always yields the same slot list. -/
theorem slots_weekend_rule (date : String) (y m d : Nat)
    (sid sty : Option String) (h : parseDate date = some (y, m, d)) :
    (get_slots date sid sty =
      .ok (date,
        if pyWeekday y m d = 5 ∨ pyWeekday y m d = 6 then
          ["10:00", "11:00", "14:00", "15:00", "17:00"]
        else
          ["10:00", "11:00", "12:00", "14:00", "15:00", "16:00", "17:00"]))
  ∧ get_slots date sid sty = get_slots date none none := by
  refine ⟨?_, rfl⟩
  simp only [get_slots, h]
  by_cases hw : pyWeekday y m d = 5 ∨ pyWeekday y m d = 6
  · simp only [if_pos hw]
    rfl
  · simp only [if_neg hw]
    rfl

/-- Witness for C3: 2025-10-11 (a Saturday) and 2025-10-12 (a Sunday)
drop exactly 12:00 and 16:00 — with ignored ids supplied on the
Saturday query — while 2025-10-13 (a Monday) keeps all seven times. -/
theorem slots_weekend_rule_witness :
    get_slots "2025-10-11" (some "svc") (some "sty") =
      .ok ("2025-10-11", ["10:00", "11:00", "14:00", "15:00", "17:00"])
  ∧ get_slots "2025-10-12" none none =
      .ok ("2025-10-12", ["10:00", "11:00", "14:00", "15:00", "17:00"])
  ∧ get_slots "2025-10-13" none none =
      .ok ("2025-10-13", ["10:00", "11:00", "12:00", "14:00", "15:00", "16:00", "17:00"]) := by
  refine ⟨?_, ?_, ?_⟩
  · rw [(slots_weekend_rule "2025-10-11" 2025 10 11 (some "svc") (some "sty")
      (by decide)).1]
    rfl
  · rw [(slots_weekend_rule "2025-10-12" 2025 10 12 none none (by decide)).1]
    rfl
  · rw [(slots_weekend_rule "2025-10-13" 2025 10 13 none none (by decide)).1]
    rfl

/-! ## Claim C4 -/

/-- Modelled from the spec's words (sections 4.3, 6 and 8): a date
string matching `YYYY-MM-DD` — four digits, hyphen, two digits, hyphen,
two digits — that denotes a valid calendar day (the spec's example
"2025-13-40", which has the digit shape, must still be rejected). -/
def specYYYYMMDD (s : String) : Bool :=
  match s.data with
  | [y1, y2, y3, y4, h1, m1, m2, h2, d1, d2] =>
      y1.isDigit && y2.isDigit && y3.isDigit && y4.isDigit
      && h1 == '-' && h2 == '-'
      && m1.isDigit && m2.isDigit && d1.isDigit && d2.isDigit
      && (let y := digitsVal [y1, y2, y3, y4]
          let m := digitsVal [m1, m2]
          let d := digitsVal [d1, d2]
          decide (1 ≤ y ∧ 1 ≤ m ∧ m ≤ 12 ∧ 1 ≤ d ∧ d ≤ daysInMonth y m))
  | _ => false

/-- C4 counterexample: "2025-1-5" does not match the `YYYY-MM-DD`
format, yet the endpoint does not fail on it — Python's `strptime`
accepts unpadded months and days — so the 400 error is not raised
exactly for the non-matching strings. -/
theorem slots_format_counterexample :
    specYYYYMMDD "2025-1-5" = false
  ∧ get_slots "2025-1-5" none none =
      .ok ("2025-1-5", ["10:00", "11:00", "14:00", "15:00", "17:00"]) := by
  exact ⟨rfl, rfl⟩

/-- C4 amended: the slot endpoint never crashes (it is total) and
fails — with HTTP 400 and the fixed detail message — exactly for the
date strings the parser rejects: those that are not year-month-day
with a four-digit year and one- or two-digit month and day (padding
optional) forming a valid calendar date.  In particular "2025-13-40"
yields the 400 error and no slot list is produced. -/
theorem slots_format_amended (date : String) (sid sty : Option String) :
    ((∃ e, get_slots date sid sty = .error e) ↔ parseDate date = none)
  ∧ (∀ e, get_slots date sid sty = .error e →
        e = ⟨400, "Invalid date format. Use YYYY-MM-DD"⟩)
  ∧ get_slots "2025-13-40" none none =
      .error ⟨400, "Invalid date format. Use YYYY-MM-DD"⟩ := by
  refine ⟨⟨?_, ?_⟩, ?_, rfl⟩
  · rintro ⟨e, he⟩
    cases hp : parseDate date with
    | none => rfl
    | some v =>
        obtain ⟨y, m, d⟩ := v
        simp [get_slots, hp] at he
  · intro hp
    refine ⟨⟨400, "Invalid date format. Use YYYY-MM-DD"⟩, ?_⟩
    simp [get_slots, hp]
  · intro e he
    cases hp : parseDate date with
    | none =>
        simp only [get_slots, hp, Except.error.injEq] at he
        exact he.symm
    | some v =>
        obtain ⟨y, m, d⟩ := v
        simp [get_slots, hp] at he

/-- Witness for C4 (amended): the spec's example input. -/
theorem slots_format_amended_witness :
    get_slots "2025-13-40" none none =
      .error ⟨400, "Invalid date format. Use YYYY-MM-DD"⟩
  ∧ parseDate "2025-13-40" = none :=
  ⟨(slots_format_amended "2025-13-40" none none).2.2,
   (slots_format_amended "2025-13-40" none none).1.mp
     ⟨_, (slots_format_amended "2025-13-40" none none).2.2⟩⟩

/-! ## Claim C5 -/

/-- C5: the three keyword rules are independent and non-exclusive —
zero, one, or all three may fire — and each firing rule appends exactly
one recommendation, in the fixed order Keratin Silk Infusion, then
Signature Cut & Finish, then Balayage Luminé; in particular
goals=["smooth","volume"] with condition "frizz" yields exactly the
Keratin and Signature recommendations, in that order, and no Balayage
entry. -/
theorem quiz_rules_independent :
    (∀ data : QuizInput,
      (ai_quiz data).2 =
        (if ((if rule1 data then [keratinRec] else [])
              ++ (if rule2 data then [cutRec] else [])
              ++ (if rule3 data then [balayageRec] else [])).isEmpty then
          [consultRec]
        else
          (if rule1 data then [keratinRec] else [])
            ++ (if rule2 data then [cutRec] else [])
            ++ (if rule3 data then [balayageRec] else [])))
  ∧ ∀ (ht : String) (sc : Option String) (pt : Option (List String)),
      (ai_quiz ⟨ht, "frizz", sc, ["smooth", "volume"], pt⟩).2 =
        [keratinRec, cutRec] := by
  constructor
  · intro data
    cases h1 : rule1 data <;> cases h2 : rule2 data <;> cases h3 : rule3 data <;>
      simp [ai_quiz, h1, h2, h3]
  · intro ht sc pt
    rfl

/-! ## Claim C6 -/

/-- C6 counterexample: with goals=["Colour"] the goals contain the
literal token "colour" up to case, yet the Balayage Luminé rule does
not fire (the endpoint returns only the default consultation): the
list-membership check is case-sensitive and "color" does not occur in
the lowered goals text "colour", so the rule is not evaluated
case-insensitively as the claim states. -/
theorem quiz_colour_counterexample :
    pyLower "Colour" = "colour"
  ∧ (ai_quiz ⟨"", "", none, ["Colour"], none⟩).2 = [consultRec]
  ∧ (ai_quiz ⟨"", "", none, ["Colour"], none⟩).2.all
      (fun r => !(r.service == "Balayage Luminé")) = true :=
  ⟨rfl, rfl, rfl⟩

theorem quiz_any_eq (data : QuizInput) :
    ((ai_quiz data).2.any (fun r => r.service == "Keratin Silk Infusion")
        = rule1 data)
  ∧ ((ai_quiz data).2.any (fun r => r.service == "Signature Cut & Finish")
        = rule2 data)
  ∧ ((ai_quiz data).2.any (fun r => r.service == "Balayage Luminé")
        = rule3 data) := by
  cases h1 : rule1 data <;> cases h2 : rule2 data <;> cases h3 : rule3 data <;>
    simp [ai_quiz, h1, h2, h3] <;> decide

/-- C6 amended: the Keratin and Signature rules are case-insensitive
substring matches over `condition` and the concatenated goals text, but
the Balayage Luminé rule (price 240.0) fires exactly when the goals
contain the literal string "colour" by exact, case-sensitive list
membership, or "color" occurs as a case-insensitive substring of the
concatenated goals text; it is not case-insensitive for "colour". -/
theorem quiz_rule_matching_amended (data : QuizInput) :
    ((ai_quiz data).2.any (fun r => r.service == "Keratin Silk Infusion") = true ↔
       (pyIn "frizz" (pyLower data.condition) = true
        ∨ pyIn "smooth" (pyLower (joinGoals data.goals)) = true))
  ∧ ((ai_quiz data).2.any (fun r => r.service == "Signature Cut & Finish") = true ↔
       pyIn "volume" (pyLower (joinGoals data.goals)) = true)
  ∧ ((ai_quiz data).2.any (fun r => r.service == "Balayage Luminé") = true ↔
       (data.goals.contains "colour" = true
        ∨ pyIn "color" (pyLower (joinGoals data.goals)) = true))
  ∧ balayageRec.price_from = 240.0 := by
  obtain ⟨e1, e2, e3⟩ := quiz_any_eq data
  refine ⟨?_, ?_, ?_, rfl⟩
  · rw [e1, rule1]
    simp
  · rw [e2, rule2]
  · rw [e3, rule3]
    simp

/-! ## Claim C7 -/

/-- C7: on every quiz input for which none of the three keyword rules
fires (for example empty goals and empty condition), the response
contains exactly one recommendation, "Personalised Consultation" with
price 0.0. -/
theorem quiz_default_consultation :
    (∀ data : QuizInput, rule1 data = false → rule2 data = false →
        rule3 data = false → (ai_quiz data).2 = [consultRec])
  ∧ consultRec.service = "Personalised Consultation"
  ∧ consultRec.price_from = 0.0 := by
  refine ⟨?_, rfl, rfl⟩
  intro data h1 h2 h3
  simp [ai_quiz, h1, h2, h3]

/-- Witness for C7: the empty quiz input fires no rule and receives
exactly the default consultation. -/
theorem quiz_default_consultation_witness :
    rule1 ⟨"", "", none, [], none⟩ = false
  ∧ rule2 ⟨"", "", none, [], none⟩ = false
  ∧ rule3 ⟨"", "", none, [], none⟩ = false
  ∧ (ai_quiz ⟨"", "", none, [], none⟩).2 = [consultRec] :=
  ⟨rfl, rfl, rfl,
   quiz_default_consultation.1 ⟨"", "", none, [], none⟩ rfl rfl rfl⟩

/-! ## Claim C8 -/

/-- C8: for every syntactically valid appointment body, creation either
succeeds — returning status "ok", the new id and `calendar_synced =
false`, regardless of whether the referenced service/stylist ids exist
(the outcome depends only on the store's answer, never on the body's
fields) — or, exactly when the store call raises, fails with a server
error (HTTP 500) carrying the underlying store error message. -/
theorem appointment_create_outcomes
    (store : Appointment → Except String String) (appt : Appointment) :
    (∀ i, store appt = .ok i →
        create_appointment store appt = .ok ⟨"ok", i, false⟩)
  ∧ (∀ e, store appt = .error e →
        create_appointment store appt = .error ⟨500, e⟩)
  ∧ (∀ r, create_appointment store appt = .ok r → r.calendar_synced = false)
  ∧ (∀ appt2, store appt = store appt2 →
        create_appointment store appt = create_appointment store appt2) := by
  refine ⟨?_, ?_, ?_, ?_⟩
  · intro i h
    simp [create_appointment, h]
  · intro e h
    simp [create_appointment, h]
  · intro r h
    cases hs : store appt <;> simp [create_appointment, hs] at h <;> simp [← h]
  · intro appt2 h
    simp [create_appointment, h]

/-- Witness for C8: a body referencing nonexistent service/stylist ids
still succeeds with `calendar_synced = false` when the store accepts
the write, and surfaces the store message as a 500 when it raises. -/
theorem appointment_create_outcomes_witness :
    create_appointment (fun _ => .ok "appt-1")
        ⟨"Jane Doe", none, none, "no-such-service", "Signature Cut & Finish",
         some "no-such-stylist", none, "2025-10-11", "10:00", none, some 95,
         "web", false, none⟩
      = .ok ⟨"ok", "appt-1", false⟩
  ∧ create_appointment (fun _ => .error "store down")
        ⟨"Jane Doe", none, none, "no-such-service", "Signature Cut & Finish",
         some "no-such-stylist", none, "2025-10-11", "10:00", none, some 95,
         "web", false, none⟩
      = .error ⟨500, "store down"⟩ :=
  ⟨(appointment_create_outcomes (fun _ => .ok "appt-1")
      ⟨"Jane Doe", none, none, "no-such-service", "Signature Cut & Finish",
       some "no-such-stylist", none, "2025-10-11", "10:00", none, some 95,
       "web", false, none⟩).1 "appt-1" rfl,
   (appointment_create_outcomes (fun _ => .error "store down")
      ⟨"Jane Doe", none, none, "no-such-service", "Signature Cut & Finish",
       some "no-such-stylist", none, "2025-10-11", "10:00", none, some 95,
       "web", false, none⟩).2.1 "store down" rfl⟩

/-! ## Claim C9 -/

/-- C9: every appointment body missing a required field
(`customer_name` or `service_id`) is rejected with a client validation
error before any store call: the response is a 422 error and is
identical for every store, so no side effect is attempted. -/
theorem appointment_missing_required_rejected (raw : RawAppointment)
    (h : raw.customer_name = none ∨ raw.service_id = none) :
    (∀ store, ∃ e, appointment_route store raw = .error e ∧ e.status = 422)
  ∧ (∀ store1 store2,
        appointment_route store1 raw = appointment_route store2 raw) := by
  have hv : ∃ msg, validateAppointment raw = .error msg := by
    rcases h with h | h
    · refine ⟨"customer_name: field required", ?_⟩
      simp [validateAppointment, h]
    · cases hcn : raw.customer_name with
      | none =>
          refine ⟨"customer_name: field required", ?_⟩
          simp [validateAppointment, hcn]
      | some cn =>
          refine ⟨"service_id: field required", ?_⟩
          simp [validateAppointment, hcn, h]
  obtain ⟨msg, hv⟩ := hv
  constructor
  · intro store
    exact ⟨⟨422, msg⟩, by simp [appointment_route, hv], rfl⟩
  · intro store1 store2
    simp [appointment_route, hv]

/-- Witness for C9: a body with no `customer_name` is answered 422
identically under an accepting store and a failing store. -/
theorem appointment_missing_required_rejected_witness :
    (∃ e, appointment_route (fun _ => .ok "id1")
        ⟨none, none, none, some "svc-1", some "Signature Cut & Finish", none,
         none, some "2025-10-11", some "10:00", none, none, none, none, none⟩
      = .error e ∧ e.status = 422)
  ∧ appointment_route (fun _ => .ok "id1")
        ⟨none, none, none, some "svc-1", some "Signature Cut & Finish", none,
         none, some "2025-10-11", some "10:00", none, none, none, none, none⟩
      = appointment_route (fun _ => .error "store down")
        ⟨none, none, none, some "svc-1", some "Signature Cut & Finish", none,
         none, some "2025-10-11", some "10:00", none, none, none, none, none⟩ :=
  ⟨(appointment_missing_required_rejected
      ⟨none, none, none, some "svc-1", some "Signature Cut & Finish", none,
       none, some "2025-10-11", some "10:00", none, none, none, none, none⟩
      (Or.inl rfl)).1 (fun _ => .ok "id1"),
   (appointment_missing_required_rejected
      ⟨none, none, none, some "svc-1", some "Signature Cut & Finish", none,
       none, some "2025-10-11", some "10:00", none, none, none, none, none⟩
      (Or.inl rfl)).2 (fun _ => .ok "id1") (fun _ => .error "store down")⟩

end HairWorx
